import Mathlib

/-!
Shallow embedding of the blogger auto-post program
(`src/lib/blogger_api.py`, `src/main.py`).

The program is a sequential wrapper over an external HTTP API.  External
collaborators (the remote API, the OAuth flow, file I/O, the pandas CSV
reader) are modelled as explicit inputs: a `World` record for the
authentication environment and an `api` oracle function for the remote
create-post endpoint.  CSV parsing itself is out of scope (delegated to
pandas); `batch_post_from_csv` is therefore embedded from the point where
`read_csv` has produced the list of row records (its lines 192-218).

Python semantics captured explicitly:
* a CSV cell (from `pandas.read_csv(...).to_dict('records')`) is a string,
  a number, or NaN (blank cell) — the Python truthiness of each is modelled
  by `truthy`; note `bool(float('nan'))` is `True` in Python;
* dictionary access `post[k]` raises `KeyError` when the key is missing;
* the `try`/`except` around `create_post` in the batch loop catches every
  exception of that call, while the `title = post[title_column]` accesses
  sit outside it;
* in `authenticate`, the token save sits inside the
  `if not creds or not creds.valid` block, and only `RefreshError` is
  caught around `creds.refresh(Request())`.
-/

/-- A CSV cell as produced by the pandas reader: a string, a number, or NaN
(what pandas yields for a blank cell). -/
inductive CellValue where
  | str (s : String)
  | num (n : Int)
  | nan
deriving DecidableEq, Repr

/-- Python truthiness of a cell value: a string is truthy iff non-empty, a
number iff non-zero, and NaN is truthy (`bool(float('nan'))` is `True`). -/
def truthy : CellValue → Bool
  | .str s => !s.isEmpty
  | .num n => n != 0
  | .nan => true

/-- A row record: the Python dict mapping column name to cell value. -/
abbrev Record := List (String × CellValue)

/-- Dictionary access `post[k]`: `some v` when present, `none` models the
`KeyError` case. -/
def lookupKey : Record → String → Option CellValue
  | [], _ => none
  | (k, v) :: rest, key => if k = key then some v else lookupKey rest key

/-- The Python `k in post` test. -/
def hasKey (r : Record) (k : String) : Bool :=
  (lookupKey r k).isSome

/-- The Python exceptions the program raises or catches, by kind. -/
inductive PyError where
  | valueError (msg : String)
  | keyError (key : String)
  | fileNotFound (msg : String)
  | refreshError (msg : String)
  | apiError (msg : String)
  | other (msg : String)
deriving DecidableEq, Repr

/-- Whether an exception is a `google.auth.exceptions.RefreshError` — the
only class caught by `authenticate`'s refresh handler. -/
def isRefreshError : PyError → Bool
  | .refreshError _ => true
  | _ => false

/-- The remote API's created-post representation; opaque to the program. -/
abbrev Response := Nat

def exceptToOption {ε α : Type} : Except ε α → Option α
  | .ok a => some a
  | .error _ => none

def exceptIsOk {ε α : Type} : Except ε α → Bool
  | .ok _ => true
  | .error _ => false

/-- An OAuth2 credential bundle (`google.oauth2.credentials.Credentials`)
reduced to the attributes the program reads: `valid`, `expired`, and
whether a refresh token is present. -/
structure Creds where
  valid : Bool
  expired : Bool
  refresh_token : Bool
deriving DecidableEq, Repr

/-- The authenticated service handle built by
`build('blogger', 'v3', credentials=creds)`. -/
structure Service where
  creds : Creds
deriving DecidableEq, Repr

/-- The `BloggerAPI` object: configuration plus the (initially absent)
service handle. -/
structure Client where
  credentials_file : String
  token_file : String
  blog_id : String
  service : Option Service
deriving DecidableEq, Repr

/-- The body dict built by `create_post`:
`{'kind': 'blogger#post', 'title': ..., 'content': ...}` plus an optional
`labels` entry. -/
structure PostBody where
  kind : String
  title : CellValue
  content : CellValue
  labels : Option (List String)
deriving DecidableEq, Repr

/-- One request issued to the remote create-post endpoint:
`service.posts().insert(blogId=..., body=..., isDraft=...)`. -/
structure ApiRequest where
  blogId : String
  body : PostBody
  isDraft : Bool
deriving DecidableEq, Repr

/-- `if labels: post_body['labels'] = labels` — the labels entry is present
in the body iff the argument is a non-empty list. -/
def labelsField : Option (List String) → Option (List String)
  | some l => if l.isEmpty then none else some l
  | none => none

/-- The post body dict as `create_post` constructs it. -/
def mkPostBody (title content : CellValue) (labels : Option (List String)) : PostBody :=
  { kind := ("blogger#post"), title := title, content := content,
    labels := labelsField labels }

def notAuthMsg : String :=
  ("Not authenticated. Call authenticate() first.")

def requiredMsg : String :=
  ("Title and content are required")

/-- The request `create_post` builds:
`service.posts().insert(blogId=self.blog_id, body=post_body, isDraft=is_draft)`. -/
def mkApiRequest (c : Client) (title content : CellValue)
    (labels : Option (List String)) (is_draft : Bool) : ApiRequest :=
  { blogId := c.blog_id, body := mkPostBody title content labels,
    isDraft := is_draft }

/-- `BloggerAPI.create_post`.  Returns the result together with the list of
requests actually issued to the remote API (empty when a precondition
fails, a singleton once `request.execute()` is reached).  The `api` oracle
is the remote endpoint; its exception is re-raised unchanged (the `except`
clause logs and bare-`raise`s). -/
def create_post (c : Client) (title content : CellValue)
    (labels : Option (List String)) (is_draft : Bool)
    (api : ApiRequest → Except PyError Response) :
    Except PyError Response × List ApiRequest :=
  match c.service with
  | none => (.error (.valueError notAuthMsg), [])
  | some _ =>
    if !truthy title || !truthy content then
      (.error (.valueError requiredMsg), [])
    else
      match api (mkApiRequest c title content labels is_draft) with
      | .ok resp => (.ok resp, [mkApiRequest c title content labels is_draft])
      | .error e => (.error e, [mkApiRequest c title content labels is_draft])

/-- Python `s.split(',')` on the character list: cut at every comma, keep
empty pieces (so `""` gives `[""]`, `","` gives `["", ""]`), separators not
included.  `acc` holds the current piece reversed. -/
def splitCommaAux : List Char → List Char → List (List Char)
  | [], acc => [acc.reverse]
  | ch :: cs, acc =>
    if ch = ',' then acc.reverse :: splitCommaAux cs []
    else splitCommaAux cs (ch :: acc)

/-- Python `s.split(',')`. -/
def pySplitComma (s : String) : List String :=
  (splitCommaAux s.data []).map List.asString

/-- Python `s.strip()`: drop leading and trailing whitespace. -/
def pyStrip (s : String) : String :=
  (((s.data.dropWhile Char.isWhitespace).reverse.dropWhile
      Char.isWhitespace).reverse).asString

/-- `[label.strip() for label in s.split(',')]`. -/
def parseLabels (s : String) : List String :=
  (pySplitComma s).map pyStrip

/-- The labels computation of the batch loop:
`if labels_column and labels_column in post and post[labels_column]:` then,
`if isinstance(post[labels_column], str):`, split and strip; otherwise the
`labels` local stays `None`. -/
def computeLabels (labels_column : Option String) (post : Record) :
    Option (List String) :=
  match labels_column with
  | none => none
  | some lc =>
    if lc.isEmpty then none
    else
      match lookupKey post lc with
      | none => none
      | some v =>
        if truthy v then
          match v with
          | .str s => some (parseLabels s)
          | _ => none
        else none

/-- The arguments of one `create_post` call made by the batch loop. -/
structure CreateCall where
  title : CellValue
  content : CellValue
  labels : Option (List String)
  is_draft : Bool
deriving DecidableEq, Repr

/-- The `create_post` call the loop makes for a given record (defined via
`getD`, which agrees with the loop when the record has the columns). -/
def rowCall (tc cc : String) (lc : Option String) (d : Bool)
    (post : Record) : CreateCall :=
  { title := (lookupKey post tc).getD (.str ("")),
    content := (lookupKey post cc).getD (.str ("")),
    labels := computeLabels lc post, is_draft := d }

/-- The result of the `create_post` call the loop makes for a record. -/
def rowResult (c : Client) (tc cc : String) (lc : Option String) (d : Bool)
    (api : ApiRequest → Except PyError Response) (post : Record) :
    Except PyError Response :=
  (create_post c ((lookupKey post tc).getD (.str ("")))
    ((lookupKey post cc).getD (.str (""))) (computeLabels lc post) d api).1

/-- The `for post in posts:` loop of `batch_post_from_csv`.  Returns the
(possibly aborted) result and the list of `create_post` calls made, in
order.  `title = post[title_column]` and `content = post[content_column]`
sit outside the `try`, so a missing key raises `KeyError` out of the loop;
the `try`/`except Exception` covers exactly the `create_post` call, so any
of its failures is swallowed and the loop continues. -/
def batchLoop (c : Client) (tc cc : String) (lc : Option String) (d : Bool)
    (api : ApiRequest → Except PyError Response) :
    List Record → Except PyError (List Response) × List CreateCall
  | [] => (.ok [], [])
  | post :: rest =>
    match lookupKey post tc with
    | none => (.error (.keyError tc), [])
    | some title =>
      match lookupKey post cc with
      | none => (.error (.keyError cc), [])
      | some content =>
        let labels := computeLabels lc post
        let call : CreateCall :=
          { title := title, content := content, labels := labels,
            is_draft := d }
        let r := create_post c title content labels d api
        let restOut := batchLoop c tc cc lc d api rest
        match r.1 with
        | .ok resp =>
          match restOut.1 with
          | .ok rs => (.ok (resp :: rs), call :: restOut.2)
          | .error e => (.error e, call :: restOut.2)
        | .error _ => (restOut.1, call :: restOut.2)

/-- The `ValueError` message of the pre-flight column check. -/
def validationMsg (tc cc : String) : String :=
  ("CSV must contain ") ++ tc ++ (" and ") ++ cc ++ (" columns")

/-- `BloggerAPI.batch_post_from_csv`, embedded from the point where
`read_csv` has produced the record list (CSV parsing is delegated to
pandas and out of scope).  Validates the first record only, then runs the
loop.  The second component is the list of `create_post` calls made. -/
def batch_post_from_csv (c : Client) (posts : List Record) (tc cc : String)
    (lc : Option String) (d : Bool)
    (api : ApiRequest → Except PyError Response) :
    Except PyError (List Response) × List CreateCall :=
  match posts with
  | [] => (.error (.valueError (validationMsg tc cc)), [])
  | first :: _ =>
    if hasKey first tc && hasKey first cc then
      batchLoop c tc cc lc d api posts
    else
      (.error (.valueError (validationMsg tc cc)), [])

/-- The environment `authenticate` interacts with: the token file (its
existence and what unpickling it yields; `none` models a load that raises,
which is caught and logged), the credentials file's existence, and the
outcomes of the three external operations — `creds.refresh(Request())`,
`flow.run_local_server(port=0)` and `build('blogger', 'v3', ...)`. -/
structure World where
  token_file_exists : Bool
  token_load : Option Creds
  credentials_file_exists : Bool
  refresh_result : Except PyError Creds
  flow_result : Except PyError Creds
  build_ok : Bool

/-- Observable side effects of one `authenticate` run: whether
`creds.refresh` was attempted, whether the interactive flow was started,
and what (if anything) was pickled to the token file. -/
structure AuthTrace where
  refreshAttempted : Bool
  flowRun : Bool
  tokenWritten : Option Creds
deriving DecidableEq, Repr

/-- Step 1 of `authenticate`: `creds` after the load-from-token-file block
(`None` when the file is missing or unpickling raised). -/
def loadCreds (w : World) : Option Creds :=
  if w.token_file_exists then w.token_load else none

/-- The Python test `creds and creds.valid`. -/
def credsTruthyValid : Option Creds → Bool
  | some cr => cr.valid
  | none => false

/-- The Python test `creds and creds.expired and creds.refresh_token`
guarding the refresh attempt. -/
def refreshNeeded : Option Creds → Bool
  | some cr => cr.expired && cr.refresh_token
  | none => false

/-- The refresh block: `creds.refresh(Request())` with
`except RefreshError: creds = None`.  `.ok` carries the `creds` local after
the block; a non-`RefreshError` exception propagates. -/
def refreshStep (w : World) : Option Creds → Except PyError (Option Creds)
  | some cr =>
    if cr.expired && cr.refresh_token then
      match w.refresh_result with
      | .ok cr2 => .ok (some cr2)
      | .error e => if isRefreshError e then .ok none else .error e
    else .ok (some cr)
  | none => .ok none

def missingCredsMsg (c : Client) : String :=
  ("Credentials file not found: ") ++ c.credentials_file

/-- The exception propagated when `build('blogger', 'v3', ...)` fails. -/
def buildErr : PyError :=
  .other ("Failed to build Blogger service")

/-- The final `self.service = build('blogger', 'v3', credentials=creds)`
step, reached with the trace accumulated so far. -/
def finishAuth (c : Client) (w : World) (cr : Creds) (tr : AuthTrace) :
    Except PyError Client × AuthTrace :=
  if w.build_ok then (.ok { c with service := some { creds := cr } }, tr)
  else (.error buildErr, tr)

/-- `BloggerAPI.authenticate`.  Mirrors the source: load the pickled token
if present; if `creds` is missing or invalid, optionally refresh (only
`RefreshError` is caught), run the interactive flow when still without
`creds` (after checking the credentials file exists), pickle the resulting
`creds` to the token file, and finally build the service.  When the loaded
token is already valid the whole block — including the save — is
skipped. -/
def authenticate (c : Client) (w : World) :
    Except PyError Client × AuthTrace :=
  let creds0 := loadCreds w
  if credsTruthyValid creds0 then
    finishAuth c w
      (creds0.getD { valid := true, expired := false, refresh_token := false })
      { refreshAttempted := false, flowRun := false, tokenWritten := none }
  else
    let rAtt := refreshNeeded creds0
    match refreshStep w creds0 with
    | .error e =>
      (.error e,
       { refreshAttempted := rAtt, flowRun := false, tokenWritten := none })
    | .ok (some cr) =>
      finishAuth c w cr
        { refreshAttempted := rAtt, flowRun := false, tokenWritten := some cr }
    | .ok none =>
      if !w.credentials_file_exists then
        (.error (.fileNotFound (missingCredsMsg c)),
         { refreshAttempted := rAtt, flowRun := false, tokenWritten := none })
      else
        match w.flow_result with
        | .error e =>
          (.error e,
           { refreshAttempted := rAtt, flowRun := true, tokenWritten := none })
        | .ok cr =>
          finishAuth c w cr
            { refreshAttempted := rAtt, flowRun := true,
              tokenWritten := some cr }

/-- `main` of `src/main.py`, from the point where the CSV rows are in hand:
authenticate, then batch-post; any exception is caught at the entry point
and turned into exit code 1, and a completed run exits 0 even when rows
failed individually. -/
def mainRun (c : Client) (w : World) (posts : List Record) (tc cc : String)
    (lc : Option String) (d : Bool)
    (api : ApiRequest → Except PyError Response) : Nat :=
  match (authenticate c w).1 with
  | .error _ => 1
  | .ok c2 =>
    match (batch_post_from_csv c2 posts tc cc lc d api).1 with
    | .error _ => 1
    | .ok _ => 0

/-! Concrete credentials, clients, worlds, records and an API oracle used
to instantiate the theorems below on closed inputs. -/

def sampleCreds : Creds :=
  { valid := true, expired := false, refresh_token := true }

def staleCreds : Creds :=
  { valid := false, expired := true, refresh_token := true }

def freshCreds : Creds :=
  { valid := true, expired := false, refresh_token := false }

def sampleClient : Client :=
  { credentials_file := ("credentials.json"), token_file := ("token.pickle"),
    blog_id := ("12345"), service := some { creds := sampleCreds } }

def bareClient : Client :=
  { sampleClient with service := none }

def rec1 : Record :=
  [(("title"), .str ("Post one")), (("content"), .str ("Body one")),
   (("labels"), .str ("a, b ,c"))]

def rec2 : Record :=
  [(("title"), .str ("Post two")), (("content"), .str ("Body two")),
   (("labels"), .nan)]

def rec3 : Record :=
  [(("title"), .str ("Post three")), (("content"), .str ("Body three"))]

def recNoContent : Record :=
  [(("title"), .str ("Post four"))]

/-- A remote endpoint that rejects the post titled `Post two` and accepts
everything else. -/
def sampleApi : ApiRequest → Except PyError Response := fun req =>
  if req.body.title = .str ("Post two") then .error (.apiError ("boom"))
  else .ok 7

def validTokenWorld : World :=
  { token_file_exists := true, token_load := some sampleCreds,
    credentials_file_exists := true, refresh_result := .ok freshCreds,
    flow_result := .ok freshCreds, build_ok := true }

/-- A world whose refresh attempt raises a non-`RefreshError` exception
(e.g. a transport error). -/
def transportFailWorld : World :=
  { token_file_exists := true, token_load := some staleCreds,
    credentials_file_exists := true,
    refresh_result := .error (.other ("transport error during refresh")),
    flow_result := .ok freshCreds, build_ok := true }

/-- A world with no usable token and no credentials file. -/
def noCredsFileWorld : World :=
  { token_file_exists := false, token_load := none,
    credentials_file_exists := false,
    refresh_result := .error (.refreshError ("invalid grant")),
    flow_result := .ok freshCreds, build_ok := true }

/-- A world whose stale token fails to refresh with a `RefreshError` and
whose service construction fails. -/
def refreshErrWorld : World :=
  { token_file_exists := true, token_load := some staleCreds,
    credentials_file_exists := true,
    refresh_result := .error (.refreshError ("invalid grant")),
    flow_result := .ok freshCreds, build_ok := false }

/-- A token that is expired and carries no refresh token: not valid, yet
the refresh block leaves the object in place. -/
def expiredNoRefreshCreds : Creds :=
  { valid := false, expired := true, refresh_token := false }

/-- A world holding such a token and no credentials file.  `authenticate`
guards the credentials-file check with `if not creds:` — a presence test,
not a validity test — so this invalid token object skips the check. -/
def expiredNoRefreshWorld : World :=
  { token_file_exists := true, token_load := some expiredNoRefreshCreds,
    credentials_file_exists := false,
    refresh_result := .error (.refreshError ("unused")),
    flow_result := .ok freshCreds, build_ok := true }

/-! Helper lemmas. -/

/-- `splitCommaAux` always returns at least one piece. -/
theorem splitCommaAux_ne_nil (cs acc : List Char) :
    splitCommaAux cs acc ≠ [] := by
  induction cs generalizing acc with
  | nil => simp [splitCommaAux]
  | cons ch cs ih =>
    by_cases h : ch = ','
    · simp [splitCommaAux, h]
    · simp [splitCommaAux, h]
      exact ih _

/-- Python `s.split(',')` always yields at least one piece, so a split
label list is never empty. -/
theorem parseLabels_ne_nil (s : String) : parseLabels s ≠ [] := by
  intro h
  rw [parseLabels, pySplitComma] at h
  simp only [List.map_eq_nil_iff] at h
  exact splitCommaAux_ne_nil s.data [] h

/-- When every record has the two required columns, the batch loop runs to
the end: it returns the successful responses in source order and makes one
`create_post` call per record. -/
theorem batchLoop_all_columns (c : Client) (tc cc : String)
    (lc : Option String) (d : Bool)
    (api : ApiRequest → Except PyError Response) (posts : List Record)
    (hall : ∀ p ∈ posts, hasKey p tc ∧ hasKey p cc) :
    batchLoop c tc cc lc d api posts
      = (.ok (posts.filterMap fun p =>
            exceptToOption (rowResult c tc cc lc d api p)),
         posts.map (rowCall tc cc lc d)) := by
  induction posts with
  | nil => rfl
  | cons post rest ih =>
    have h1 : hasKey post tc := (hall post (List.mem_cons_self _ _)).1
    have h2 : hasKey post cc := (hall post (List.mem_cons_self _ _)).2
    obtain ⟨tv, htv⟩ := Option.isSome_iff_exists.mp h1
    obtain ⟨cv, hcv⟩ := Option.isSome_iff_exists.mp h2
    have ihr := ih (fun p hp => hall p (List.mem_cons_of_mem _ hp))
    have hrow : rowResult c tc cc lc d api post
        = (create_post c tv cv (computeLabels lc post) d api).1 := by
      rw [rowResult, htv, hcv]
      rfl
    cases hr : (create_post c tv cv (computeLabels lc post) d api).1 with
    | ok resp =>
      simp [batchLoop, htv, hcv, ihr, hr, List.filterMap_cons, hrow,
        exceptToOption, rowCall]
    | error e =>
      simp [batchLoop, htv, hcv, ihr, hr, List.filterMap_cons, hrow,
        exceptToOption, rowCall]

/-- Counting: the successes are the records minus the failed calls. -/
theorem length_filterMap_exceptToOption {α ε β : Type} (f : α → Except ε β)
    (l : List α) :
    (l.filterMap fun p => exceptToOption (f p)).length
      = l.length - (l.filter fun p => !exceptIsOk (f p)).length := by
  induction l with
  | nil => rfl
  | cons a l ih =>
    have hle : (l.filter fun p => !exceptIsOk (f p)).length ≤ l.length :=
      List.length_filter_le _ _
    cases hf : f a with
    | ok b =>
      have h1 : exceptToOption (f a) = some b := by rw [hf]; rfl
      have h2 : (!exceptIsOk (f a)) = false := by rw [hf]; rfl
      rw [List.filterMap_cons, List.filter_cons, h1, h2]
      simp [ih]
      omega
    | error e =>
      have h1 : exceptToOption (f a) = (none : Option β) := by rw [hf]; rfl
      have h2 : (!exceptIsOk (f a)) = true := by rw [hf]; rfl
      rw [List.filterMap_cons, List.filter_cons, h1, h2]
      simp [ih]

/-- A key the record does not contain is exactly one whose lookup is
`none`. -/
theorem hasKey_false_iff (r : Record) (k : String) :
    hasKey r k = false ↔ lookupKey r k = none := by
  rw [hasKey]
  cases lookupKey r k <;> simp

/-- When every record before `bad` has both columns and `bad` lacks one,
the loop attempts exactly the records before `bad` and then propagates the
`KeyError` for the first missing column of `bad`. -/
theorem batchLoop_missing_key (c : Client) (tc cc : String)
    (lc : Option String) (d : Bool)
    (api : ApiRequest → Except PyError Response)
    (good : List Record) (bad : Record) (rest : List Record)
    (hgood : ∀ p ∈ good, hasKey p tc ∧ hasKey p cc)
    (hbad : ¬(hasKey bad tc ∧ hasKey bad cc)) :
    batchLoop c tc cc lc d api (good ++ bad :: rest)
      = (.error (.keyError (if hasKey bad tc then cc else tc)),
         good.map (rowCall tc cc lc d)) := by
  induction good with
  | nil =>
    simp only [List.nil_append]
    cases h1 : hasKey bad tc with
    | false =>
      have htv := (hasKey_false_iff bad tc).mp h1
      simp [batchLoop, htv, h1]
    | true =>
      have h2 : hasKey bad cc = false := by
        cases hx : hasKey bad cc
        · rfl
        · exact absurd ⟨h1, hx⟩ hbad
      obtain ⟨tv, htv⟩ := Option.isSome_iff_exists.mp h1
      have hcv := (hasKey_false_iff bad cc).mp h2
      simp [batchLoop, htv, hcv, h1]
  | cons g gs ih =>
    have hk1 := (hgood g (List.mem_cons_self _ _)).1
    have hk2 := (hgood g (List.mem_cons_self _ _)).2
    obtain ⟨tv, htv⟩ := Option.isSome_iff_exists.mp hk1
    obtain ⟨cv, hcv⟩ := Option.isSome_iff_exists.mp hk2
    have ihr := ih (fun p hp => hgood p (List.mem_cons_of_mem _ hp))
    have hcall : rowCall tc cc lc d g
        = { title := tv, content := cv, labels := computeLabels lc g,
            is_draft := d } := by
      rw [rowCall, htv, hcv]
      rfl
    cases hr : (create_post c tv cv (computeLabels lc g) d api).1 with
    | ok resp =>
      simp [List.cons_append, batchLoop, htv, hcv, ihr, hr, hcall]
    | error e =>
      simp [List.cons_append, batchLoop, htv, hcv, ihr, hr, hcall]

/-! Theorems settling the claims. -/

/-- C1: when no record is missing the title or content column, batch
publish attempts a `create_post` call for every record in source order,
swallows every failing call, and returns exactly the successful responses
in source order — `N − K` of them when `K` of the `N` calls fail; no
exception escapes the loop and there is no early abort. -/
theorem batch_isolates_failures (c : Client) (tc cc : String)
    (lc : Option String) (d : Bool)
    (api : ApiRequest → Except PyError Response) (posts : List Record)
    (hne : posts ≠ [])
    (hall : ∀ p ∈ posts, hasKey p tc ∧ hasKey p cc) :
    (batch_post_from_csv c posts tc cc lc d api).1
        = .ok (posts.filterMap fun p =>
            exceptToOption (rowResult c tc cc lc d api p)) ∧
    (batch_post_from_csv c posts tc cc lc d api).2
        = posts.map (rowCall tc cc lc d) ∧
    (posts.filterMap fun p =>
        exceptToOption (rowResult c tc cc lc d api p)).length
      = posts.length
        - (posts.filter fun p =>
            !exceptIsOk (rowResult c tc cc lc d api p)).length := by
  cases posts with
  | nil => exact absurd rfl hne
  | cons p0 rest =>
    have h1 := (hall p0 (List.mem_cons_self _ _)).1
    have h2 := (hall p0 (List.mem_cons_self _ _)).2
    have hb := batchLoop_all_columns c tc cc lc d api (p0 :: rest) hall
    have hv : batch_post_from_csv c (p0 :: rest) tc cc lc d api
        = batchLoop c tc cc lc d api (p0 :: rest) := by
      simp [batch_post_from_csv, h1, h2]
    rw [hv, hb]
    exact ⟨rfl, rfl, length_filterMap_exceptToOption _ _⟩

/-- Witness for C1 on closed inputs: three records of which the middle one
is rejected by the remote endpoint — all three are attempted and the two
successes come back in order. -/
theorem batch_isolates_failures_witness :
    ([rec1, rec2, rec3] : List Record) ≠ [] ∧
    (∀ p ∈ ([rec1, rec2, rec3] : List Record),
      hasKey p ("title") ∧ hasKey p ("content")) ∧
    ((batch_post_from_csv sampleClient [rec1, rec2, rec3] ("title")
        ("content") (some ("labels")) false sampleApi).1
      = .ok ([rec1, rec2, rec3].filterMap fun p =>
          exceptToOption (rowResult sampleClient ("title") ("content")
            (some ("labels")) false sampleApi p)) ∧
     (batch_post_from_csv sampleClient [rec1, rec2, rec3] ("title")
        ("content") (some ("labels")) false sampleApi).2
      = [rec1, rec2, rec3].map
          (rowCall ("title") ("content") (some ("labels")) false) ∧
     ([rec1, rec2, rec3].filterMap fun p =>
        exceptToOption (rowResult sampleClient ("title") ("content")
          (some ("labels")) false sampleApi p)).length
      = ([rec1, rec2, rec3] : List Record).length
        - ([rec1, rec2, rec3].filter fun p =>
            !exceptIsOk (rowResult sampleClient ("title") ("content")
              (some ("labels")) false sampleApi p)).length) :=
  ⟨by decide, by decide,
   batch_isolates_failures sampleClient ("title") ("content")
     (some ("labels")) false sampleApi [rec1, rec2, rec3]
     (by decide) (by decide)⟩

/-- C5: when the first record has both required columns but a later record
lacks one, the loop's field access raises a `KeyError` at that record —
the per-row handler around `create_post` does not cover it — and the batch
aborts, having attempted only the records before it. -/
theorem batch_aborts_on_missing_key (c : Client) (tc cc : String)
    (lc : Option String) (d : Bool)
    (api : ApiRequest → Except PyError Response)
    (g0 : Record) (mid : List Record) (bad : Record) (rest : List Record)
    (h0 : hasKey g0 tc ∧ hasKey g0 cc)
    (hmid : ∀ p ∈ mid, hasKey p tc ∧ hasKey p cc)
    (hbad : ¬(hasKey bad tc ∧ hasKey bad cc)) :
    (batch_post_from_csv c (g0 :: (mid ++ bad :: rest)) tc cc lc d api).1
        = .error (.keyError (if hasKey bad tc then cc else tc)) ∧
    (batch_post_from_csv c (g0 :: (mid ++ bad :: rest)) tc cc lc d api).2
        = (g0 :: mid).map (rowCall tc cc lc d) := by
  have hgood : ∀ p ∈ g0 :: mid, hasKey p tc ∧ hasKey p cc := by
    intro p hp
    rcases List.mem_cons.mp hp with h | h
    · subst h
      exact h0
    · exact hmid p h
  have happ : g0 :: (mid ++ bad :: rest) = (g0 :: mid) ++ bad :: rest := by
    simp
  have hv : batch_post_from_csv c (g0 :: (mid ++ bad :: rest)) tc cc lc d api
      = batchLoop c tc cc lc d api (g0 :: (mid ++ bad :: rest)) := by
    simp [batch_post_from_csv, h0.1, h0.2]
  rw [hv, happ,
    batchLoop_missing_key c tc cc lc d api (g0 :: mid) bad rest hgood hbad]
  exact ⟨rfl, rfl⟩

/-- Witness for C5 on closed inputs: the third record has no content
column; the batch raises `KeyError('content')` after attempting the first
two records. -/
theorem batch_aborts_on_missing_key_witness :
    (hasKey rec1 ("title") ∧ hasKey rec1 ("content")) ∧
    (∀ p ∈ ([rec2] : List Record),
      hasKey p ("title") ∧ hasKey p ("content")) ∧
    ¬(hasKey recNoContent ("title") ∧ hasKey recNoContent ("content")) ∧
    ((batch_post_from_csv sampleClient
        (rec1 :: ([rec2] ++ recNoContent :: [rec3])) ("title") ("content")
        (some ("labels")) false sampleApi).1
      = .error (.keyError
          (if hasKey recNoContent ("title") then ("content")
           else ("title"))) ∧
     (batch_post_from_csv sampleClient
        (rec1 :: ([rec2] ++ recNoContent :: [rec3])) ("title") ("content")
        (some ("labels")) false sampleApi).2
      = ([rec1, rec2] : List Record).map
          (rowCall ("title") ("content") (some ("labels")) false)) :=
  ⟨by decide, by decide, by decide,
   batch_aborts_on_missing_key sampleClient ("title") ("content")
     (some ("labels")) false sampleApi rec1 [rec2] recNoContent [rec3]
     (by decide) (by decide) (by decide)⟩

/-- The trace accumulated before the final build step is returned whether
or not the build succeeds. -/
theorem finishAuth_trace (c : Client) (w : World) (cr : Creds)
    (tr : AuthTrace) : (finishAuth c w cr tr).2 = tr := by
  cases hb : w.build_ok <;> simp [finishAuth, hb]

/-- A failing service build propagates its exception. -/
theorem finishAuth_fail (c : Client) (w : World) (cr : Creds)
    (tr : AuthTrace) (hb : w.build_ok = false) :
    (finishAuth c w cr tr).1 = .error buildErr := by
  simp [finishAuth, hb]

/-- A successful service build returns the client with the handle set. -/
theorem finishAuth_ok (c : Client) (w : World) (cr : Creds)
    (tr : AuthTrace) (hb : w.build_ok = true) :
    (finishAuth c w cr tr).1
      = .ok { c with service := some { creds := cr } } := by
  simp [finishAuth, hb]

/-- C4: when the token file exists and deserializes to a valid token,
`authenticate` attempts no refresh and runs no interactive flow, and —
when the service build succeeds — produces the client with the service
handle set, still bound to the configured blog identifier. -/
theorem valid_token_skips_flow (c : Client) (w : World) (cr : Creds)
    (hl : loadCreds w = some cr) (hv : cr.valid = true) :
    (authenticate c w).2.flowRun = false ∧
    (authenticate c w).2.refreshAttempted = false ∧
    (authenticate c w).2.tokenWritten = none ∧
    (w.build_ok = true →
      (authenticate c w).1
        = .ok { c with service := some { creds := cr } }) ∧
    (∀ c2, (authenticate c w).1 = .ok c2 →
      c2.blog_id = c.blog_id ∧ c2.service = some { creds := cr }) := by
  have hcv : credsTruthyValid (loadCreds w) = true := by
    rw [hl]
    exact hv
  have ha : authenticate c w
      = finishAuth c w cr
          { refreshAttempted := false, flowRun := false,
            tokenWritten := none } := by
    rw [authenticate]
    simp [hl, credsTruthyValid, hv]
  refine ⟨by rw [ha, finishAuth_trace], by rw [ha, finishAuth_trace],
    by rw [ha, finishAuth_trace], ?_, ?_⟩
  · intro hb
    rw [ha, finishAuth_ok c w cr _ hb]
  · intro c2 h
    rw [ha] at h
    cases hb : w.build_ok
    · rw [finishAuth_fail c w cr _ hb] at h
      cases h
    · rw [finishAuth_ok c w cr _ hb] at h
      cases h
      exact ⟨rfl, rfl⟩

/-- Witness for C4 on closed inputs: a world with a valid persisted
token. -/
theorem valid_token_skips_flow_witness :
    loadCreds validTokenWorld = some sampleCreds ∧
    sampleCreds.valid = true ∧
    (authenticate sampleClient validTokenWorld).2.flowRun = false ∧
    (authenticate sampleClient validTokenWorld).2.refreshAttempted
      = false ∧
    (validTokenWorld.build_ok = true →
      (authenticate sampleClient validTokenWorld).1
        = .ok { sampleClient with
                service := some { creds := sampleCreds } }) :=
  ⟨rfl, rfl,
   (valid_token_skips_flow sampleClient validTokenWorld sampleCreds
      rfl rfl).1,
   (valid_token_skips_flow sampleClient validTokenWorld sampleCreds
      rfl rfl).2.1,
   (valid_token_skips_flow sampleClient validTokenWorld sampleCreds
      rfl rfl).2.2.2.1⟩

/-- C3 counterexample: with an already-valid persisted token the run
succeeds, yet nothing is written back to the token file — the token is not
persisted on every successful run of `authenticate`. -/
theorem token_not_persisted_when_valid :
    (authenticate sampleClient validTokenWorld).1
      = .ok { sampleClient with service := some { creds := sampleCreds } } ∧
    (authenticate sampleClient validTokenWorld).2.tokenWritten = none :=
  ⟨rfl, rfl⟩

/-- C3 (amended): the token is persisted exactly when `authenticate`
entered the re-auth block because the loaded token was missing or invalid;
it is then written before the service handle is constructed (even when
construction then fails), while an already-valid loaded token is not
re-persisted. -/
theorem token_persisted_on_reauth (c : Client) (w : World) :
    (credsTruthyValid (loadCreds w) = true →
      (authenticate c w).2.tokenWritten = none) ∧
    (credsTruthyValid (loadCreds w) = false →
      (∀ cr, refreshStep w (loadCreds w) = .ok (some cr) →
        (authenticate c w).2.tokenWritten = some cr ∧
        (w.build_ok = false → (authenticate c w).1 = .error buildErr)) ∧
      (refreshStep w (loadCreds w) = .ok none →
        w.credentials_file_exists = true →
        ∀ cr2, w.flow_result = .ok cr2 →
          (authenticate c w).2.tokenWritten = some cr2 ∧
          (w.build_ok = false →
            (authenticate c w).1 = .error buildErr))) := by
  constructor
  · intro hv
    rw [authenticate]
    simp only [hv, if_true]
    rw [finishAuth_trace]
  · intro hnv
    constructor
    · intro cr hr
      have ha : authenticate c w
          = finishAuth c w cr
              { refreshAttempted := refreshNeeded (loadCreds w),
                flowRun := false, tokenWritten := some cr } := by
        rw [authenticate]
        simp [hnv, hr]
      exact ⟨by rw [ha, finishAuth_trace],
        fun hb => by rw [ha, finishAuth_fail c w cr _ hb]⟩
    · intro hr hce cr2 hfl
      have ha : authenticate c w
          = finishAuth c w cr2
              { refreshAttempted := refreshNeeded (loadCreds w),
                flowRun := true, tokenWritten := some cr2 } := by
        rw [authenticate]
        simp [hnv, hr, hce, hfl]
      exact ⟨by rw [ha, finishAuth_trace],
        fun hb => by rw [ha, finishAuth_fail c w cr2 _ hb]⟩

/-- Witness for C3's amended statement on closed inputs: a stale token
whose refresh fails with `RefreshError`, an interactive flow yielding a
fresh token, and a failing service build — the fresh token is persisted
even though `authenticate` then fails at construction. -/
theorem token_persisted_on_reauth_witness :
    credsTruthyValid (loadCreds refreshErrWorld) = false ∧
    refreshStep refreshErrWorld (loadCreds refreshErrWorld) = .ok none ∧
    refreshErrWorld.credentials_file_exists = true ∧
    refreshErrWorld.flow_result = .ok freshCreds ∧
    (authenticate sampleClient refreshErrWorld).2.tokenWritten
      = some freshCreds ∧
    (refreshErrWorld.build_ok = false →
      (authenticate sampleClient refreshErrWorld).1 = .error buildErr) :=
  ⟨rfl, rfl, rfl, rfl,
   (((token_persisted_on_reauth sampleClient refreshErrWorld).2 rfl).2
      rfl rfl freshCreds rfl).1,
   (((token_persisted_on_reauth sampleClient refreshErrWorld).2 rfl).2
      rfl rfl freshCreds rfl).2⟩

/-- C8 counterexample: a non-`RefreshError` exception (here a transport
error) raised by the refresh attempt propagates out of `authenticate` — the
token is not discarded in favour of the interactive flow, which never
runs, even though the credentials file exists and the flow would have
succeeded. -/
theorem refresh_transport_error_fatal :
    (authenticate sampleClient transportFailWorld).1
      = .error (.other ("transport error during refresh")) ∧
    (authenticate sampleClient transportFailWorld).2.flowRun = false ∧
    transportFailWorld.credentials_file_exists = true ∧
    transportFailWorld.flow_result = .ok freshCreds :=
  ⟨rfl, rfl, rfl, rfl⟩

/-- C8 (amended): a `RefreshError` failure of the refresh attempt is
non-fatal — the token is discarded and `authenticate` falls through to the
interactive flow, failing only if the missing-credentials-file check, the
interactive flow, or the final service construction fails; a
non-`RefreshError` exception from the refresh attempt propagates
instead. -/
theorem refresh_error_falls_through (c : Client) (w : World) (cr : Creds)
    (e : PyError) (hl : loadCreds w = some cr) (hv : cr.valid = false)
    (he : cr.expired = true) (hrt : cr.refresh_token = true)
    (hf : w.refresh_result = .error e) :
    (isRefreshError e = true →
      (authenticate c w).2.refreshAttempted = true ∧
      (w.credentials_file_exists = false →
        (authenticate c w).1 = .error (.fileNotFound (missingCredsMsg c)) ∧
        (authenticate c w).2.flowRun = false) ∧
      (w.credentials_file_exists = true →
        (authenticate c w).2.flowRun = true ∧
        (∀ e2, w.flow_result = .error e2 →
          (authenticate c w).1 = .error e2) ∧
        (∀ cr2, w.flow_result = .ok cr2 →
          (authenticate c w).2.tokenWritten = some cr2 ∧
          (w.build_ok = true →
            (authenticate c w).1
              = .ok { c with service := some { creds := cr2 } }) ∧
          (w.build_ok = false →
            (authenticate c w).1 = .error buildErr)))) ∧
    (isRefreshError e = false →
      (authenticate c w).1 = .error e ∧
      (authenticate c w).2.flowRun = false) := by
  have hnv : credsTruthyValid (loadCreds w) = false := by
    rw [hl]
    exact hv
  have hrn : refreshNeeded (loadCreds w) = true := by
    rw [hl]
    simp [refreshNeeded, he, hrt]
  constructor
  · intro hre
    have hrs : refreshStep w (loadCreds w) = .ok none := by
      rw [hl]
      simp [refreshStep, he, hrt, hf, hre]
    refine ⟨?_, ?_, ?_⟩
    · cases hce : w.credentials_file_exists
      · have ha : authenticate c w
            = (.error (.fileNotFound (missingCredsMsg c)),
               { refreshAttempted := refreshNeeded (loadCreds w),
                 flowRun := false, tokenWritten := none }) := by
          rw [authenticate]
          simp [hnv, hrs, hce]
        rw [ha, hrn]
      · cases hfl : w.flow_result with
        | error e2 =>
          have ha : authenticate c w
              = (.error e2,
                 { refreshAttempted := refreshNeeded (loadCreds w),
                   flowRun := true, tokenWritten := none }) := by
            rw [authenticate]
            simp [hnv, hrs, hce, hfl]
          rw [ha, hrn]
        | ok cr2 =>
          have ha : authenticate c w
              = finishAuth c w cr2
                  { refreshAttempted := refreshNeeded (loadCreds w),
                    flowRun := true, tokenWritten := some cr2 } := by
            rw [authenticate]
            simp [hnv, hrs, hce, hfl]
          rw [ha, finishAuth_trace, hrn]
    · intro hce
      have ha : authenticate c w
          = (.error (.fileNotFound (missingCredsMsg c)),
             { refreshAttempted := refreshNeeded (loadCreds w),
               flowRun := false, tokenWritten := none }) := by
        rw [authenticate]
        simp [hnv, hrs, hce]
      rw [ha]
      exact ⟨rfl, rfl⟩
    · intro hce
      refine ⟨?_, ?_, ?_⟩
      · cases hfl : w.flow_result with
        | error e2 =>
          have ha : authenticate c w
              = (.error e2,
                 { refreshAttempted := refreshNeeded (loadCreds w),
                   flowRun := true, tokenWritten := none }) := by
            rw [authenticate]
            simp [hnv, hrs, hce, hfl]
          rw [ha]
        | ok cr2 =>
          have ha : authenticate c w
              = finishAuth c w cr2
                  { refreshAttempted := refreshNeeded (loadCreds w),
                    flowRun := true, tokenWritten := some cr2 } := by
            rw [authenticate]
            simp [hnv, hrs, hce, hfl]
          rw [ha, finishAuth_trace]
      · intro e2 hfl
        have ha : authenticate c w
            = (.error e2,
               { refreshAttempted := refreshNeeded (loadCreds w),
                 flowRun := true, tokenWritten := none }) := by
          rw [authenticate]
          simp [hnv, hrs, hce, hfl]
        rw [ha]
      · intro cr2 hfl
        have ha : authenticate c w
            = finishAuth c w cr2
                { refreshAttempted := refreshNeeded (loadCreds w),
                  flowRun := true, tokenWritten := some cr2 } := by
          rw [authenticate]
          simp [hnv, hrs, hce, hfl]
        exact ⟨by rw [ha, finishAuth_trace],
          fun hb => by rw [ha, finishAuth_ok c w cr2 _ hb],
          fun hb => by rw [ha, finishAuth_fail c w cr2 _ hb]⟩
  · intro hre
    have hrs : refreshStep w (loadCreds w) = .error e := by
      rw [hl]
      simp [refreshStep, he, hrt, hf, hre]
    have ha : authenticate c w
        = (.error e,
           { refreshAttempted := refreshNeeded (loadCreds w),
             flowRun := false, tokenWritten := none }) := by
      rw [authenticate]
      simp [hnv, hrs]
    rw [ha]
    exact ⟨rfl, rfl⟩

/-- Witness for C8's amended statement on closed inputs: a stale token
whose refresh fails with `RefreshError`; with the credentials file present
the interactive flow runs and its fresh token is persisted. -/
theorem refresh_error_falls_through_witness :
    loadCreds refreshErrWorld = some staleCreds ∧
    staleCreds.valid = false ∧
    staleCreds.expired = true ∧
    staleCreds.refresh_token = true ∧
    refreshErrWorld.refresh_result
      = .error (.refreshError ("invalid grant")) ∧
    isRefreshError (.refreshError ("invalid grant")) = true ∧
    (authenticate sampleClient refreshErrWorld).2.refreshAttempted
      = true ∧
    (refreshErrWorld.credentials_file_exists = true →
      (authenticate sampleClient refreshErrWorld).2.flowRun = true) :=
  ⟨rfl, rfl, rfl, rfl, rfl, rfl,
   ((refresh_error_falls_through sampleClient refreshErrWorld staleCreds
      (.refreshError ("invalid grant")) rfl rfl rfl rfl rfl).1 rfl).1,
   fun hce =>
     (((refresh_error_falls_through sampleClient refreshErrWorld staleCreds
        (.refreshError ("invalid grant")) rfl rfl rfl rfl rfl).1 rfl).2.2
        hce).1⟩

/-- C9 counterexample: a loaded token that is expired with no refresh
token is not valid after the load and refresh steps, and the credentials
file does not exist — yet `authenticate` succeeds with no flow and the
process exits 0.  The guard before the credentials-file check is
`if not creds:`, a presence test, so an invalid token object that
survives the refresh block skips the check, is re-pickled as-is, and the
service is built. -/
theorem missing_credentials_not_checked_with_stale_token :
    credsTruthyValid (loadCreds expiredNoRefreshWorld) = false ∧
    expiredNoRefreshWorld.credentials_file_exists = false ∧
    (authenticate sampleClient expiredNoRefreshWorld).1
      = .ok { sampleClient with
              service := some { creds := expiredNoRefreshCreds } } ∧
    (authenticate sampleClient expiredNoRefreshWorld).2.flowRun = false ∧
    (authenticate sampleClient expiredNoRefreshWorld).2.tokenWritten
      = some expiredNoRefreshCreds ∧
    mainRun sampleClient expiredNoRefreshWorld [rec1] ("title")
      ("content") (some ("labels")) false sampleApi = 0 :=
  ⟨rfl, rfl, rfl, rfl, rfl, rfl⟩

/-- C9 (amended): when after the load and refresh steps no token object
remains — the token file was absent or unreadable, or the loaded token was
unusable and its refresh attempt failed with `RefreshError` — and the
credentials-file path does not exist, `authenticate` fails with the
missing-credentials `FileNotFoundError` without starting the interactive
flow, and the process as a whole exits with code 1.  (The code tests token
presence, not validity, before the credentials-file check, so an invalid
token object that survives the refresh block skips it.) -/
theorem missing_credentials_fatal (c : Client) (w : World)
    (posts : List Record) (tc cc : String) (lc : Option String) (d : Bool)
    (api : ApiRequest → Except PyError Response)
    (h0 : credsTruthyValid (loadCreds w) = false)
    (h1 : refreshStep w (loadCreds w) = .ok none)
    (h2 : w.credentials_file_exists = false) :
    (authenticate c w).1 = .error (.fileNotFound (missingCredsMsg c)) ∧
    (authenticate c w).2.flowRun = false ∧
    mainRun c w posts tc cc lc d api = 1 := by
  have ha : authenticate c w
      = (.error (.fileNotFound (missingCredsMsg c)),
         { refreshAttempted := refreshNeeded (loadCreds w),
           flowRun := false, tokenWritten := none }) := by
    rw [authenticate]
    simp [h0, h1, h2]
  refine ⟨by rw [ha], by rw [ha], ?_⟩
  rw [mainRun, ha]

/-- Witness for C9 on closed inputs: no token file and no credentials
file — authentication fails and the run exits 1. -/
theorem missing_credentials_fatal_witness :
    credsTruthyValid (loadCreds noCredsFileWorld) = false ∧
    refreshStep noCredsFileWorld (loadCreds noCredsFileWorld) = .ok none ∧
    noCredsFileWorld.credentials_file_exists = false ∧
    (authenticate sampleClient noCredsFileWorld).1
      = .error (.fileNotFound (missingCredsMsg sampleClient)) ∧
    mainRun sampleClient noCredsFileWorld [rec1] ("title") ("content")
      (some ("labels")) false sampleApi = 1 :=
  ⟨rfl, rfl, rfl,
   (missing_credentials_fatal sampleClient noCredsFileWorld [rec1]
      ("title") ("content") (some ("labels")) false sampleApi
      rfl rfl rfl).1,
   (missing_credentials_fatal sampleClient noCredsFileWorld [rec1]
      ("title") ("content") (some ("labels")) false sampleApi
      rfl rfl rfl).2.2⟩

/-- C6: a `create_post` call on an unauthenticated client fails with the
not-authenticated `ValueError`, and a call with an empty title or content
string fails with the required-fields `ValueError`; in both cases the list
of requests issued to the remote API is empty. -/
theorem create_post_guards (c : Client) (title content : CellValue)
    (t s : String) (labels : Option (List String)) (d : Bool)
    (api : ApiRequest → Except PyError Response) :
    (c.service = none →
      create_post c title content labels d api
        = (.error (.valueError notAuthMsg), [])) ∧
    (c.service ≠ none → (t = "" ∨ s = "") →
      create_post c (.str t) (.str s) labels d api
        = (.error (.valueError requiredMsg), [])) := by
  constructor
  · intro h
    simp [create_post, h]
  · intro h1 h2
    cases hs : c.service with
    | none => exact absurd hs h1
    | some sv =>
      have he : ("" : String).isEmpty = true := rfl
      rcases h2 with h | h <;> subst h <;>
        simp [create_post, hs, truthy, he]

/-- Witness for C6 on closed inputs: a client with no service handle, and
an authenticated client called with an empty title. -/
theorem create_post_guards_witness :
    bareClient.service = none ∧
    sampleClient.service ≠ none ∧
    create_post bareClient (.str ("x")) (.str ("y")) none false sampleApi
      = (.error (.valueError notAuthMsg), []) ∧
    create_post sampleClient (.str ("")) (.str ("y")) none false sampleApi
      = (.error (.valueError requiredMsg), []) :=
  ⟨rfl, by decide,
   (create_post_guards bareClient (.str ("x")) (.str ("y")) ("") ("y")
      none false sampleApi).1 rfl,
   (create_post_guards sampleClient (.str ("x")) (.str ("y")) ("") ("y")
      none false sampleApi).2 (by decide) (Or.inl rfl)⟩

/-- C7: when a record's configured labels column holds a non-empty string
`s`, the computed label list is the comma-split of `s` with each token
stripped, and it appears as the request body's labels field; when the
column is absent from the record or holds the empty string, the labels
field is absent from the body; and `"a, b ,c"` parses to
`["a", "b", "c"]`. -/
theorem labels_parsing (p : Record) (lc s : String) (t cv : CellValue) :
    (lc ≠ "" → lookupKey p lc = some (.str s) → s ≠ "" →
      computeLabels (some lc) p = some (parseLabels s) ∧
      (mkPostBody t cv (computeLabels (some lc) p)).labels
        = some (parseLabels s)) ∧
    (lookupKey p lc = none ∨ lookupKey p lc = some (.str ("")) →
      computeLabels (some lc) p = none ∧
      (mkPostBody t cv (computeLabels (some lc) p)).labels = none) ∧
    parseLabels ("a, b ,c") = [("a"), ("b"), ("c")] := by
  refine ⟨?_, ?_, by decide⟩
  · intro h0 h1 h2
    have hne : s.isEmpty = false := by
      cases hx : s.isEmpty
      · rfl
      · exact absurd ((String.isEmpty_iff s).mp hx) h2
    have hlc : lc.isEmpty = false := by
      cases hx : lc.isEmpty
      · rfl
      · exact absurd ((String.isEmpty_iff lc).mp hx) h0
    have hcl : computeLabels (some lc) p = some (parseLabels s) := by
      simp [computeLabels, h1, truthy, hne, hlc]
    refine ⟨hcl, ?_⟩
    rw [mkPostBody, hcl]
    have hpl := parseLabels_ne_nil s
    simp [labelsField, hpl]
  · intro h
    have hcl : computeLabels (some lc) p = none := by
      have hemp : ("" : String).isEmpty = true := rfl
      rcases h with h | h
      · by_cases hlc : lc.isEmpty <;> simp [computeLabels, h, hlc]
      · by_cases hlc : lc.isEmpty <;>
          simp [computeLabels, h, truthy, hlc, hemp]
    rw [mkPostBody, hcl]
    exact ⟨rfl, rfl⟩

/-- Witness for C7 on closed inputs: `rec1` carries `"a, b ,c"` in its
labels column, `rec3` has no labels column. -/
theorem labels_parsing_witness :
    computeLabels (some ("labels")) rec1 = some (parseLabels ("a, b ,c")) ∧
    computeLabels (some ("labels")) rec3 = none ∧
    parseLabels ("a, b ,c") = [("a"), ("b"), ("c")] :=
  ⟨((labels_parsing rec1 ("labels") ("a, b ,c") .nan .nan).1
      (by decide) (by decide) (by decide)).1,
   ((labels_parsing rec3 ("labels") ("a, b ,c") .nan .nan).2.1
      (Or.inl (by decide))).1,
   (labels_parsing rec1 ("labels") ("a, b ,c") .nan .nan).2.2⟩

/-- C10: a labels cell that is present and truthy but not a string (a
number, or the truthy NaN pandas puts in a blank cell) leaves the computed
labels absent instead of failing, and `create_post` places a labels field
in the issued request body exactly when the labels argument is a non-empty
list. -/
theorem labels_nonstring_and_payload (p : Record) (lc : String)
    (v : CellValue) (l : List String) (c : Client) (sv : Service)
    (t cv : CellValue) (labels : Option (List String)) (d : Bool)
    (api : ApiRequest → Except PyError Response) :
    (lookupKey p lc = some v → truthy v = true → (∀ s, v ≠ .str s) →
      computeLabels (some lc) p = none) ∧
    labelsField none = none ∧
    labelsField (some []) = none ∧
    (l ≠ [] → labelsField (some l) = some l) ∧
    (c.service = some sv → truthy t = true → truthy cv = true →
      (create_post c t cv labels d api).2
        = [mkApiRequest c t cv labels d] ∧
      (mkPostBody t cv labels).labels = labelsField labels) := by
  refine ⟨?_, rfl, rfl, ?_, ?_⟩
  · intro h1 h2 h3
    by_cases hlc : lc.isEmpty
    · simp [computeLabels, hlc]
    · cases v with
      | str s => exact absurd rfl (h3 s)
      | num n => simp [computeLabels, hlc, h1, h2]
      | nan => simp [computeLabels, hlc, h1, h2]
  · intro hl
    have hx : l.isEmpty = false := by
      cases hx : l.isEmpty
      · rfl
      · exact absurd (List.isEmpty_iff.mp hx) hl
    simp [labelsField, hx]
  · intro hs ht hc
    have hcond : (!truthy t || !truthy cv) = false := by
      rw [ht, hc]
      rfl
    refine ⟨?_, rfl⟩
    rw [create_post, hs]
    simp only [hcond, Bool.false_eq_true, if_false]
    cases api (mkApiRequest c t cv labels d) <;> rfl

/-- Witness for C10 on closed inputs: `rec2`'s labels cell is NaN (truthy,
not a string), and a `create_post` on the authenticated client issues
exactly one request whose body has no labels field when labels is `none`. -/
theorem labels_nonstring_and_payload_witness :
    computeLabels (some ("labels")) rec2 = none ∧
    labelsField (some [("a")]) = some [("a")] ∧
    (create_post sampleClient (.str ("T")) (.str ("B")) none false
        sampleApi).2
      = [mkApiRequest sampleClient (.str ("T")) (.str ("B")) none false] :=
  ⟨(labels_nonstring_and_payload rec2 ("labels") .nan [("a")] sampleClient
      { creds := sampleCreds } (.str ("T")) (.str ("B")) none false
      sampleApi).1 (by decide) (by decide) (by intro s h; cases h),
   (labels_nonstring_and_payload rec2 ("labels") .nan [("a")] sampleClient
      { creds := sampleCreds } (.str ("T")) (.str ("B")) none false
      sampleApi).2.2.2.1 (by decide),
   ((labels_nonstring_and_payload rec2 ("labels") .nan [("a")] sampleClient
      { creds := sampleCreds } (.str ("T")) (.str ("B")) none false
      sampleApi).2.2.2.2 rfl (by decide) (by decide)).1⟩

/-- C2: batch publish fails with the pre-flight `ValueError` — making no
`create_post` call — when the record list is empty or when the first
record lacks the configured title or content column; when the first record
has both columns the check passes and the loop runs, whatever the later
records contain. -/
theorem batch_preflight_validation (c : Client) (posts : List Record)
    (tc cc : String) (lc : Option String) (d : Bool)
    (api : ApiRequest → Except PyError Response) :
    (posts = [] →
      batch_post_from_csv c posts tc cc lc d api
        = (.error (.valueError (validationMsg tc cc)), [])) ∧
    (∀ p0 rest, posts = p0 :: rest →
      (hasKey p0 tc = false ∨ hasKey p0 cc = false) →
      batch_post_from_csv c posts tc cc lc d api
        = (.error (.valueError (validationMsg tc cc)), [])) ∧
    (∀ p0 rest, posts = p0 :: rest → hasKey p0 tc = true →
      hasKey p0 cc = true →
      batch_post_from_csv c posts tc cc lc d api
        = batchLoop c tc cc lc d api posts) := by
  refine ⟨?_, ?_, ?_⟩
  · intro h
    subst h
    rfl
  · intro p0 rest h hk
    subst h
    rcases hk with hk | hk <;> simp [batch_post_from_csv, hk]
  · intro p0 rest h h1 h2
    subst h
    simp [batch_post_from_csv, h1, h2]

/-- Witness for C2 on closed inputs: the empty source and a source whose
first record has no content column both fail the pre-flight check with no
call made. -/
theorem batch_preflight_validation_witness :
    batch_post_from_csv sampleClient [] ("title") ("content")
        (some ("labels")) false sampleApi
      = (.error (.valueError (validationMsg ("title") ("content"))), []) ∧
    batch_post_from_csv sampleClient [recNoContent, rec1] ("title")
        ("content") (some ("labels")) false sampleApi
      = (.error (.valueError (validationMsg ("title") ("content"))), []) :=
  ⟨(batch_preflight_validation sampleClient [] ("title") ("content")
      (some ("labels")) false sampleApi).1 rfl,
   (batch_preflight_validation sampleClient [recNoContent, rec1] ("title")
      ("content") (some ("labels")) false sampleApi).2.1 recNoContent
      [rec1] rfl (Or.inr (by decide))⟩
